import Mathlib

/-!
Verification of the Whispering Wilds game-logic core.

This file gives a shallow embedding, in Lean, of the pure state-transition
engine of the repository (src/engine/actions.ts and the modules it uses:
locations, encounters, progression, quests, trading, text, and the static
content tables), together with theorems settling the frozen claims about it.

Modelling conventions:
- JS numbers are modelled as `Int` (all engine arithmetic is on integers)
  except spawn/escape probabilities, which are exact rationals (`Rat`).
- Optional / possibly-undefined TS fields become `Option`; JS truthiness
  tests on them go through `truthy` below, and `x ?? d` becomes `Option.getD`.
- `Math.random()` draws are passed in explicitly through a `Draws` record,
  one field per call site; `Math.floor(random * list.length)` becomes a
  natural-number index reduced modulo the list length (the JS value always
  lies in `[0, length)`, so the reduction never changes in-range behaviour).
- Log-entry `id` and `timestamp` fields (wall-clock / random cosmetic data,
  never read back by the engine) are dropped; a log entry is its type tag
  plus its text.
- JS objects used as string-keyed maps (npcMemory, tradeUsage) are
  association lists; `{...m, [k]: v}` replaces the first binding of `k` in
  place or appends, which `objSet` below reproduces.
-/

/-- JS truthiness of an optional boolean flag (`undefined` and `false` are falsy). -/
def truthy (o : Option Bool) : Bool :=
  o.getD false

/-- Update of a string-keyed object map: replace the binding in place, else append. -/
def objSet (m : List (String × Int)) (k : String) (v : Int) : List (String × Int) :=
  if m.any (fun p => p.1 == k) then
    m.map (fun p => if p.1 == k then (k, v) else p)
  else
    m ++ [(k, v)]

/-- Lookup in a string-keyed object map. -/
def objGet (m : List (String × Int)) (k : String) : Option Int :=
  (m.find? (fun p => p.1 == k)).map (·.2)

/-! ## Data model (src/types/gameState.ts) -/

/-- Valid location identifiers in the game world. -/
inductive LocationId
  | sanctum | gate | wilds | lake | mine | hermit_hut | trader_post | deep_wilds
deriving DecidableEq, Repr

/-- Biome types that locations can belong to. -/
inductive Biome
  | sanctum | forest | lake | mine | camp | deep_forest
deriving DecidableEq, Repr

/-- Exit directions used by the location table. -/
inductive Direction
  | north | south | east | west | up | down
deriving DecidableEq, Repr

/-- Status of a quest in the game. -/
inductive QuestStatus
  | not_started | active | completed
deriving DecidableEq, Repr

/-- Current state of a quest. -/
structure QuestState where
  id : String
  name : String
  step : String
  status : QuestStatus
deriving DecidableEq, Repr

/-- An instance of an item in the player's inventory. -/
structure InventoryItemInstance where
  itemId : String
  quantity : Int
deriving DecidableEq, Repr

/-- Simple reputation state scaffold. -/
structure ReputationState where
  forest : Int
deriving DecidableEq, Repr

/-- Narrative flags tracking story progression and world state.
`npcMemory` maps an NPC id to its `timesSpoken` counter. -/
structure NarrativeFlags where
  groveHealed : Option Bool := none
  lakeTreatment : Option Bool := none
  mineTreatment : Option Bool := none
  lakeEchoesFound : Option Bool := none
  glowCommuneComplete : Option Bool := none
  npcMemory : Option (List (String × Int)) := none
  reputation : Option ReputationState := none
  seenTutorial : Option Bool := none
  runEnded : Option Bool := none
deriving DecidableEq, Repr

/-- Encounter state for tracking active creature encounters. -/
structure EncounterState where
  creatureId : String
  hp : Int
  hasRepFlavourApplied : Option Bool := none
deriving DecidableEq, Repr

/-- Tracks soft usage limits for gathering per run. -/
structure GatherState where
  wildsHerbs : Int
  lakeWater : Int
  mineOre : Int
  luminousFragments : Option Int := none
deriving DecidableEq, Repr

/-- Kinds of log entries surfaced to the rendering layer. -/
inductive LogType
  | narration | system | combat | quest | choice
deriving DecidableEq, Repr

/-- A log entry (unique id and timestamp dropped, see header). -/
structure LogEntry where
  type : LogType
  text : String
deriving DecidableEq, Repr

/-- Player record inside the game state. -/
structure PlayerState where
  hp : Int
  maxHp : Int
  xp : Int
  level : Int
  inventory : List InventoryItemInstance
deriving DecidableEq, Repr

/-- Complete game state containing all runtime information. -/
structure GameState where
  currentLocation : LocationId
  player : PlayerState
  quests : List QuestState
  flags : NarrativeFlags
  log : List LogEntry
  currentEncounter : Option EncounterState := none
  gather : GatherState
  tradeUsage : List (String × Int)
deriving DecidableEq, Repr

/-- Result of performing a game action. -/
structure ActionResult where
  state : GameState
  logEntries : List LogEntry
deriving DecidableEq, Repr

/-- Explicit random draws for one action, one field per `Math.random()` site. -/
structure Draws where
  spawnRoll : Rat := 1
  spareRoll : Rat := 1
  creatureIdx : Nat := 0
  textIdxA : Nat := 0
  textIdxB : Nat := 0
  escapeRoll : Rat := 0
deriving DecidableEq, Repr

/-- Builds a log entry (source also attaches a fresh id and timestamp). -/
def mkLog (t : LogType) (text : String) : LogEntry :=
  { type := t, text := text }

/-! ## Content tables -/

/-- Location data (src/content; exits as direction/destination pairs). -/
structure LocationData where
  id : LocationId
  name : String
  biome : Biome
  baseDescription : String
  exits : List (Direction × LocationId)
deriving DecidableEq, Repr

/-- The static location table. -/
def locations : LocationId → LocationData
  | .sanctum =>
    { id := .sanctum, name := "Sanctum", biome := .sanctum,
      baseDescription := "A small stone-and-timber sanctum on the edge of the Wilds.",
      exits := [(.north, .gate)] }
  | .gate =>
    { id := .gate, name := "The Gate", biome := .forest,
      baseDescription := "An old wooden gate marking the threshold between Sanctum and the Wilds.",
      exits := [(.south, .sanctum), (.north, .wilds)] }
  | .wilds =>
    { id := .wilds, name := "The Wilds", biome := .forest,
      baseDescription := "The forest presses close here, quiet and watchful.",
      exits := [(.south, .gate), (.east, .lake), (.west, .mine), (.north, .hermit_hut),
                (.down, .trader_post), (.up, .deep_wilds)] }
  | .lake =>
    { id := .lake, name := "The Lake", biome := .lake,
      baseDescription := "A placid lake reflecting the sky.",
      exits := [(.west, .wilds)] }
  | .mine =>
    { id := .mine, name := "The Mine", biome := .mine,
      baseDescription := "An abandoned mine entrance.",
      exits := [(.east, .wilds)] }
  | .hermit_hut =>
    { id := .hermit_hut, name := "Hermit\x27s Hut", biome := .camp,
      baseDescription := "A small hut nestled in the trees.",
      exits := [(.south, .wilds)] }
  | .trader_post =>
    { id := .trader_post, name := "Trader\x27s Post", biome := .camp,
      baseDescription := "A trading post with various goods.",
      exits := [(.up, .wilds)] }
  | .deep_wilds =>
    { id := .deep_wilds, name := "Deeper Wilds", biome := .deep_forest,
      baseDescription := "The forest closes in here, lit by faint, pulsing motes of light between the roots.",
      exits := [(.down, .wilds)] }

/-- Function getLocation (total here: every `LocationId` is in the table, so the
source's unknown-id throw is unreachable). -/
def getLocation (id : LocationId) : LocationData :=
  locations id

/-- Combat statistics of a creature. -/
structure CreatureStats where
  hp : Int
  attack : Int
  defence : Int
deriving DecidableEq, Repr

/-- Creature data from the content tables. -/
structure CreatureData where
  id : String
  name : String
  stats : CreatureStats
  biome : Biome
deriving DecidableEq, Repr

/-- The list Object.values(creatures) in declaration order (src/content/creatures.ts). -/
def creaturesList : List CreatureData :=
  [ { id := "wild_spirit", name := "Wild Spirit",
      stats := { hp := 8, attack := 3, defence := 1 }, biome := .forest },
    { id := "lake_wisp", name := "Lake Wisp",
      stats := { hp := 6, attack := 2, defence := 1 }, biome := .lake },
    { id := "mine_shade", name := "Mine Shade",
      stats := { hp := 10, attack := 4, defence := 2 }, biome := .mine },
    { id := "stray_beast", name := "Stray Beast",
      stats := { hp := 7, attack := 3, defence := 1 }, biome := .forest } ]

/-- Key lookup `creatures[id]` in the creature record. -/
def creatureById (id : String) : Option CreatureData :=
  creaturesList.find? (fun c => c.id == id)

/-- One step of a quest definition. -/
structure QuestStepDef where
  id : String
  summary : String
deriving DecidableEq, Repr

/-- A static quest definition. -/
structure QuestDefinition where
  id : String
  name : String
  steps : List QuestStepDef
deriving DecidableEq, Repr

/-- Lookup QUESTS[id] (src/content/quests.ts); `none` for ids outside the
`QuestId` union type. Step summaries are elided (never read by the engine). -/
def questDefById (id : String) : Option QuestDefinition :=
  if id == "heal_the_grove" then
    some { id := "heal_the_grove", name := "Heal the Grove",
           steps := [⟨"speak_to_caretaker", ""⟩, ⟨"gather_ingredients", ""⟩,
                     ⟨"perform_ritual", ""⟩, ⟨"return_to_caretaker", ""⟩,
                     ⟨"grove_healed", ""⟩] }
  else if id == "echoes_at_the_lake" then
    some { id := "echoes_at_the_lake", name := "Echoes at the Lake",
           steps := [⟨"unlocked", ""⟩, ⟨"investigate_lake", ""⟩,
                     ⟨"return_to_hermit", ""⟩, ⟨"completed", ""⟩] }
  else if id == "hermits_glow" then
    some { id := "hermits_glow", name := "Hermit\x27s Glow",
           steps := [⟨"unlocked", ""⟩, ⟨"seek_glow", ""⟩, ⟨"found_glow", ""⟩,
                     ⟨"commune_with_glow", ""⟩, ⟨"completed", ""⟩] }
  else if id == "hermit_fragment" then
    some { id := "hermit_fragment", name := "Hermit\x27s Gift",
           steps := [⟨"unlocked", ""⟩, ⟨"delivered", ""⟩, ⟨"completed", ""⟩] }
  else
    none

/-- NPC identifiers. -/
inductive NpcId
  | caretaker | hermit | ranger_trader
deriving DecidableEq, Repr

/-- NPC data from the content tables. -/
structure NpcData where
  id : String
  name : String
  location : LocationId
  introLines : List String
deriving DecidableEq, Repr

/-- The static NPC table (src/content/npcs.ts). -/
def npcs : NpcId → NpcData
  | .caretaker =>
    { id := "caretaker", name := "Caretaker", location := .sanctum,
      introLines :=
        [ "Welcome back, traveler. The Sanctum has been quiet.",
          "The forest beyond these walls needs help—there are places that have grown sick, places that need tending.",
          "If you venture out, be careful. The Wilds are not what they once were." ] }
  | .hermit =>
    { id := "hermit", name := "Hermit", location := .hermit_hut,
      introLines :=
        [ "What do you want?",
          "I don\x27t get many visitors. Most people know better than to wander this deep.",
          "If you came looking for answers, you might be disappointed. I keep to myself." ] }
  | .ranger_trader =>
    { id := "ranger_trader", name := "Ranger", location := .trader_post,
      introLines :=
        [ "Ah, a traveler. I\x27m the Ranger here, and I run this trading post.",
          "I deal in resources—herbs, ore, water. If you have something useful, we can make a trade.",
          "The Wilds are dangerous, but they hold valuable things for those willing to gather them." ] }

/-- A cost or reward line of a trade offer. -/
structure TradeCost where
  itemId : String
  quantity : Int
deriving DecidableEq, Repr

/-- A trade offer at the trading post. -/
structure TradeOffer where
  id : String
  label : String
  costs : List TradeCost
  rewards : List TradeCost
deriving DecidableEq, Repr

/-- The Ranger's trade offers (src/content/shop.ts). -/
def RANGER_TRADES : List TradeOffer :=
  [ { id := "herbs_for_tonic", label := "Trade 3x Forest Herb for 1x Healing Tonic",
      costs := [⟨"forest_herb", 3⟩], rewards := [⟨"healing_tonic", 1⟩] },
    { id := "ore_for_tonic", label := "Trade 2x Raw Ore for 1x Healing Tonic",
      costs := [⟨"raw_ore", 2⟩], rewards := [⟨"healing_tonic", 1⟩] } ]

/-! ## Progression (src/engine/progression.ts) -/

/-- XP thresholds for levels 1 to 5. -/
def XP_THRESHOLDS : List Int := [0, 10, 30, 60, 100]

/-- The descending threshold scan of `getLevelForXp`: starting from index `i`
and counting down, the first index whose threshold is reached gives level
`index + 1`; if none is reached the initial `level = 1` stands. -/
def levelForFrom (xp : Int) : Nat → Int
  | 0 => if xp ≥ XP_THRESHOLDS.getD 0 0 then 1 else 1
  | j + 1 =>
    if xp ≥ XP_THRESHOLDS.getD (j + 1) 0 then (j : Int) + 2
    else levelForFrom xp j

/-- Gets the player level for a given XP amount. -/
def getLevelForXp (xp : Int) : Int :=
  levelForFrom xp (XP_THRESHOLDS.length - 1)

/-- Applies XP to the player and handles leveling up. -/
def applyXp (state : GameState) (amount : Int) : GameState × Bool :=
  let currentXp := state.player.xp
  let newXp := max 0 (currentXp + amount)
  let oldLevel := state.player.level
  let newLevel := getLevelForXp newXp
  let newState :=
    { state with player := { state.player with xp := newXp, level := newLevel } }
  if newLevel > oldLevel then
    let levelDiff := newLevel - oldLevel
    let newMaxHp := state.player.maxHp + levelDiff * 5
    ({ newState with
        player := { newState.player with maxHp := newMaxHp, hp := newMaxHp } }, true)
  else
    (newState, false)

/-! ## Text helpers (src/engine/text.ts) -/

/-- Function pick selects one element by a random index. The source draws
`Math.floor(Math.random() * options.length)`, always in range; `idx` models
that draw, reduced modulo the length to keep the model total. Never called
on an empty pool (the source throws there). -/
def pick (options : List String) (idx : Nat) : String :=
  if options.length = 0 then ""
  else options.getD (idx % options.length) ""

/-- Fallback sense lines. -/
def DEFAULT_SENSE_LINES : List String :=
  [ "You take in your surroundings, quiet and watchful.",
    "You pause, letting the air settle around you." ]

/-- Per-location sense line pools. -/
def SENSE_LINES : LocationId → Option (List String)
  | .sanctum => some
    [ "The candles breathe quietly; beyond the walls, the forest waits.",
      "Stillness here. The Sanctum holds its breath while the Wilds watch.",
      "Candlelight flickers. Outside, something listens.",
      "Ancient wards murmur softly, the Sanctum sheltering every exhale.",
      "You feel the stone cradle you, humming with memory." ]
  | .gate => some
    [ "Wind worries the old wood. The Wilds feel close.",
      "The gate creaks softly. Beyond it, the forest presses near.",
      "Old timber groans. The threshold between safety and the unknown.",
      "The hinges whisper; the path beyond waits for your step." ]
  | .wilds => some
    [ "For a moment everything is still, as if listening back.",
      "The forest holds its breath. Something is watching.",
      "A hush falls. The trees seem to lean closer.",
      "The Wilds feel charged, like lightning about to strike.",
      "Leaves rustle where there is no wind, whispering your name." ]
  | .lake => some
    [ "Water laps quietly at the shore. The surface reflects nothing quite right.",
      "The lake is still, too still. Its surface refuses to show you clearly.",
      "Ripples move without wind. Something stirs beneath.",
      "The air tastes of iron and mist. Something old dreams under the water." ]
  | .mine => some
    [ "Darkness pools in the entrance. The mine holds its secrets close.",
      "Cold air drifts from the tunnel. Old stone remembers.",
      "The mine mouth gapes. Something waits in the deep.",
      "Dust motes hang unmoving, as if the mine is holding its breath." ]
  | .hermit_hut => some
    [ "A small hut, quiet and closed. Someone lives here, but they keep to themselves.",
      "The hut sits among the trees, door shut. Privacy respected.",
      "Smoke curls from a small chimney. The hermit is home, but not welcoming.",
      "You sense guarded patience within; this is someone else’s solitude." ]
  | .trader_post => some
    [ "A trading post, busy with quiet commerce. The Ranger keeps watch.",
      "Goods line the shelves. A place of exchange in the Wilds.",
      "The post feels safer than the forest. Business, not mystery.",
      "Ledger ink and dried herbs mingle; the Ranger weighs every deal." ]
  | .deep_wilds => some
    [ "The light here is not sunlight. Pale motes drift through gnarled roots and hush the air.",
      "A slow pulse of pale light moves between trunks, and the forest seems to watch with something like curiosity.",
      "The deeper woods breathe differently here; faint glow threads weave through the undergrowth.",
      "Something luminous hums just out of reach — the air tastes of old secrets." ]

/-- Extra sense pool for the Wilds after the grove is healed. -/
def WILDS_HEALED_SENSE_LINES : List String :=
  [ "The Wilds breathe easy. Leaves murmur, but the edge has gone from the silence.",
    "A gentler quiet now. The tension has lifted, leaving only the forest’s natural hush.",
    "The air feels lighter here. Whatever was wrong has been soothed.",
    "Birdsong returns in hesitant notes; the Wilds seem thankful." ]

/-- Fallback gather lines. -/
def DEFAULT_GATHER_LINES : List String :=
  [ "You search around, but there is nothing here you can safely gather.",
    "Nothing here calls to be collected. You move on.",
    "The place offers nothing for gathering. You leave it as you found it." ]

/-- Per-location gather line pools. -/
def GATHER_LINES : LocationId → Option (List String)
  | .sanctum => some
    [ "There is nothing here to take; the Sanctum itself is your shelter.",
      "You run your hand along carved stone. It offers reassurance, not resources." ]
  | .wilds => some
    [ "You move slowly, hands careful on bark and moss, and gather a handful of forest herbs.",
      "Fingers trace the undergrowth, finding bitter green leaves. You collect what you need.",
      "Careful not to disturb the quiet, you gather herbs from the forest floor.",
      "You trim a sprig of herbs and whisper thanks to the soil beneath it." ]
  | .lake => some
    [ "Kneeling at the shore, you fill a small vial with lake water, trying not to disturb the surface.",
      "You dip a vial into the still water, drawing up what you need while the surface barely ripples.",
      "Carefully, you collect lake water, mindful of what might be watching from below.",
      "A gentle scoop gathers clear water; you leave barely a ripple behind." ]
  | .mine => some
    [ "You chip away at the rock, freeing a few lumps of raw ore.",
      "Stone yields to careful strikes. You gather what the mine offers.",
      "Working quietly, you extract ore from the mine wall.",
      "You pry loose a shard of ore and let the rest of the seam rest." ]
  | .trader_post => some
    [ "You eye the shelves; best to trade rather than pilfer.",
      "Everything here belongs to fair dealing. You take nothing freely." ]
  | .gate => some
    [ "Nothing to gather at the gate — only choices to make." ]
  | .hermit_hut => some
    [ "Respecting the hut’s threshold, you gather nothing here." ]
  | .deep_wilds => some
    [ "You cup handfuls of the pale motes, but they slip through your fingers like dust of light.",
      "The deeper grove offers nothing you can carry—only a sense that the place has marked you.",
      "You find small glowing fragments caught on moss, but they fade as you reach for them." ]

/-- Returns varied sense text for a location. -/
def senseAt (locationId : LocationId) (groveHealed : Option Bool)
    (glowCommuneComplete : Option Bool) (idx : Nat) : String :=
  let baseLines := (SENSE_LINES locationId).getD DEFAULT_SENSE_LINES
  if locationId = .wilds ∧ truthy groveHealed then
    pick (baseLines ++ WILDS_HEALED_SENSE_LINES) idx
  else if locationId = .deep_wilds ∧ truthy glowCommuneComplete then
    let softer :=
      [ "The pale motes settle around you like a hand on your shoulder. The glow recognizes you now.",
        "The deeper wood feels quieter, kinder — the light threads seem to hum with a familiar note.",
        "The glow moves through the roots with a steadier rhythm. The Wilds regard you as one of their own." ]
    pick (baseLines ++ softer) idx
  else
    pick baseLines idx

/-- Returns varied gather text for a location. -/
def gatherAt (locationId : LocationId) (idx : Nat) : String :=
  match GATHER_LINES locationId with
  | none => pick DEFAULT_GATHER_LINES idx
  | some lines =>
    if lines.length = 0 then pick DEFAULT_GATHER_LINES idx else pick lines idx

/-- Returns varied text for when the player hits a creature. -/
def hitCreature (creatureName : String) (damage : Int) (idx : Nat) : String :=
  pick
    [ "You strike at " ++ creatureName ++ ", dealing " ++ toString damage ++ " damage.",
      "Your blow lands; " ++ creatureName ++ " shivers, taking " ++ toString damage ++ " damage.",
      "You press forward, and " ++ creatureName ++ " recoils from " ++ toString damage ++ " points of harm." ]
    idx

/-- Returns varied text for when a creature hits the player. -/
def creatureHitsPlayer (creatureName : String) (damage : Int) (idx : Nat) : String :=
  pick
    [ creatureName ++ " lashes out, dealing " ++ toString damage ++ " damage.",
      creatureName ++ "\x27s touch bites cold for " ++ toString damage ++ " damage.",
      creatureName ++ " strikes back, and you take " ++ toString damage ++ " damage." ]
    idx

/-- Forest reputation tiers that affect encounter behaviour and flavour. -/
inductive ForestRepTier
  | hostile | uneasy | neutral | favour | revered
deriving DecidableEq, Repr

/-- Reputation-aware flavour suffix for the first creature hit of an encounter. -/
def getRepFlavourForCreatureHit (tier : ForestRepTier) : Option String :=
  if tier = .favour ∨ tier = .revered then
    some "— the blow feels strangely restrained."
  else if tier = .hostile then
    some "— the strike lands with the weight of the forest\x27s anger."
  else
    none

/-- Returns varied text for successful escape. -/
def escapeSuccess (creatureName : String) (idx : Nat) : String :=
  pick
    [ "You slip away from " ++ creatureName ++ ", heart pounding.",
      "You retreat, and " ++ creatureName ++ " lets you go.",
      "You break away, leaving " ++ creatureName ++ " behind." ]
    idx

/-- Returns varied text for failed escape attempt. -/
def escapeFail (creatureName : String) (damage : Int) (idx : Nat) : String :=
  pick
    [ "You stumble; " ++ creatureName ++ " catches you for " ++ toString damage ++ " damage.",
      "Your escape falters. " ++ creatureName ++ " strikes as you turn, dealing " ++ toString damage ++ " damage.",
      "You try to flee, but " ++ creatureName ++ " is faster. " ++ toString damage ++ " damage." ]
    idx

/-! ## Locations (src/engine/locations.ts) -/

/-- Gets all available exits from a location. -/
def getAvailableExits (id : LocationId) : List (Direction × LocationId) :=
  (getLocation id).exits

/-- Returns available exits taking game state into account: the Deeper Wilds
exit is gated behind the Hermit\x27s Glow quest being active. -/
def getAvailableExitsForState (state : GameState) : List (Direction × LocationId) :=
  let location := getLocation state.currentLocation
  let raw := location.exits
  raw.filter (fun exit =>
    if exit.2 = .deep_wilds then
      match state.quests.find? (fun q => q.id == "hermits_glow") with
      | none => false
      | some hermits => hermits.status == QuestStatus.active
    else
      true)

/-- Gets the location description, which may change based on game state flags. -/
def getLocationDescription (state : GameState) : String :=
  let location := getLocation state.currentLocation
  let description := location.baseDescription
  if truthy state.flags.groveHealed then
    if state.currentLocation = .wilds then
      "The forest here feels looser and kinder now, as if something heavy has been lifted."
    else if state.currentLocation = .gate then
      "Even from here, the air beyond the gate feels calmer than before."
    else description
  else description

/-! ## Encounters (src/engine/encounters.ts) -/

/-- Gets the forest reputation tier from game state. -/
def getForestRepTier (state : GameState) : ForestRepTier :=
  let forest := (state.flags.reputation.map (·.forest)).getD 0
  if forest ≥ 25 then .revered
  else if forest ≥ 10 then .favour
  else if forest ≤ -20 then .hostile
  else if forest ≤ -5 then .uneasy
  else .neutral

/-- Gets all creatures that can appear in a given location based on biome. -/
def getCreaturesForLocation (locationId : LocationId) : List CreatureData :=
  let biome := (getLocation locationId).biome
  creaturesList.filter (fun c => c.biome == biome)

/-- Location- and flag-aware encounter chance. -/
def getEncounterChance (state : GameState) : Rat :=
  let groveHealed := truthy state.flags.groveHealed
  match state.currentLocation with
  | .wilds => if groveHealed then 0.15 else 0.3
  | .deep_wilds =>
    if truthy state.flags.glowCommuneComplete then max 0.2 (0.35 - 0.05)
    else 0.35
  | .lake => 0.25
  | .mine => 0.25
  | .gate => 0.1
  | _ => 0.0

/-- Gets a random creature for a location; `idx` models the in-range draw
`Math.floor(Math.random() * list.length)` (see the `pick` convention). -/
def getRandomCreatureForLocation (locationId : LocationId) (idx : Nat) :
    Option CreatureData :=
  let list := getCreaturesForLocation locationId
  if list.length = 0 then none
  else list.get? (idx % list.length)

/-- Creates a new encounter state with the given creature. -/
def createEncounterState (state : GameState) (creature : CreatureData) : GameState :=
  { state with
      currentEncounter := some { creatureId := creature.id, hp := creature.stats.hp } }

/-- Reputation-aware flavour text for encounter start (none in neutral tier). -/
def createForestRepEncounterFlavor (state : GameState) (creatureName : String) :
    Option LogEntry :=
  let tier := getForestRepTier state
  let text : Option String :=
    if tier = .revered then
      some (creatureName ++ " pauses, recognising the quiet care you\x27ve shown the Wilds.")
    else if tier = .favour then
      some ("The Wilds seem to hold their breath around " ++ creatureName ++ ", as if reluctant to strike you.")
    else if tier = .uneasy then
      some ("The forest feels tense. " ++ creatureName ++ " watches you with narrowed eyes.")
    else if tier = .hostile then
      some ("The air bristles. " ++ creatureName ++ " lunges as if the forest itself wants you gone.")
    else none
  match text with
  | none => none
  | some t => some (mkLog .narration t)

/-- Log entry for when an encounter begins. -/
def createEncounterLog (state : GameState) (creature : CreatureData) : LogEntry :=
  let here := getLocation state.currentLocation
  mkLog .combat ("Something stirs in " ++ here.name ++ ". " ++ creature.name ++ " emerges.")

/-- Checks if the player is currently in an encounter. -/
def isInEncounter (state : GameState) : Bool :=
  state.currentEncounter.isSome

/-! ## Quest ledger (src/engine/quests.ts) -/

/-- Gets the current state of a quest by id. -/
def getQuestState (state : GameState) (id : String) : Option QuestState :=
  state.quests.find? (fun q => q.id == id)

/-- Replace the first quest record with a matching id, else append.
The source computes `findIndex` and replaces at that index via `map`,
which is exactly this first-match replacement. -/
def upsertQuestList : List QuestState → QuestState → List QuestState
  | [], quest => [quest]
  | q :: rest, quest =>
    if q.id == quest.id then quest :: rest else q :: upsertQuestList rest quest

/-- Updates or inserts a quest state. -/
def upsertQuestState (state : GameState) (quest : QuestState) : GameState :=
  { state with quests := upsertQuestList state.quests quest }

/-- Lazily materialises a quest record: returns the existing record, or creates
a default (first step, `not_started`) from the quest definition; ids outside
the content table yield no record. -/
def ensureQuestStateExists (state : GameState) (id : String) :
    GameState × Option QuestState :=
  match getQuestState state id with
  | some existing => (state, some existing)
  | none =>
    match questDefById id with
    | none => (state, none)
    | some questDef =>
      let initialStep := ((questDef.steps.head?).map (·.id)).getD "unlocked"
      let newQuest : QuestState :=
        { id := questDef.id, name := questDef.name,
          step := initialStep, status := .not_started }
      (upsertQuestState state newQuest, some newQuest)

/-- Sets the status of a quest, lazily creating the record. -/
def setQuestStatus (state : GameState) (id : String) (status : QuestStatus) :
    GameState :=
  match ensureQuestStateExists state id with
  | (_, none) => state
  | (ensuredState, some quest) => upsertQuestState ensuredState { quest with status := status }

/-- Sets the current step of a quest, lazily creating the record. -/
def setQuestStep (state : GameState) (id : String) (step : String) : GameState :=
  match ensureQuestStateExists state id with
  | (_, none) => state
  | (ensuredState, some quest) => upsertQuestState ensuredState { quest with step := step }

/-- Activates a quest if it is not yet started: sets status to active and step
to the first step id from the quest definition. -/
def activateQuestIfNeeded (state : GameState) (id : String) : GameState :=
  match ensureQuestStateExists state id with
  | (_, none) => state
  | (ensuredState, some quest) =>
    if quest.status = .active ∨ quest.status = .completed then ensuredState
    else if quest.status = .not_started then
      match questDefById id with
      | none => ensuredState
      | some questDef =>
        match (questDef.steps.head?).map (·.id) with
        | none => ensuredState
        | some firstStepId =>
          upsertQuestState ensuredState { quest with status := .active, step := firstStepId }
    else ensuredState

/-! ## Inventory helpers (src/engine/actions.ts) -/

/-- Counts the total quantity of an item in the player's inventory. -/
def countItem (state : GameState) (itemId : String) : Int :=
  state.player.inventory.foldl
    (fun sum item => if item.itemId == itemId then sum + item.quantity else sum) 0

/-- The map-with-carried-remaining of `removeItems`: each matching entry gives
up `min quantity remaining`; entries that reach zero are pruned. -/
def removeItemsGo (itemId : String) : Int → List InventoryItemInstance →
    List InventoryItemInstance
  | _, [] => []
  | remaining, item :: rest =>
    if item.itemId ≠ itemId ∨ remaining ≤ 0 then
      item :: removeItemsGo itemId remaining rest
    else
      let toRemove := min item.quantity remaining
      let newQty := item.quantity - toRemove
      if newQty > 0 then
        { item with quantity := newQty } :: removeItemsGo itemId (remaining - toRemove) rest
      else
        removeItemsGo itemId (remaining - toRemove) rest

/-- Removes a quantity of an item from the player's inventory. -/
def removeItems (state : GameState) (itemId : String) (quantity : Int) : GameState :=
  { state with
      player := { state.player with
        inventory := removeItemsGo itemId quantity state.player.inventory } }

/-- Adds an item to the player's inventory, stacking with existing entries. -/
def addItemToInventory (state : GameState) (itemId : String) (quantity : Int) :
    GameState :=
  let existing := state.player.inventory.find? (fun i => i.itemId == itemId)
  let newInventory :=
    match existing with
    | some _ =>
      state.player.inventory.map (fun i =>
        if i.itemId == itemId then { i with quantity := i.quantity + quantity } else i)
    | none => state.player.inventory ++ [{ itemId := itemId, quantity := quantity }]
  { state with player := { state.player with inventory := newInventory } }

/-! ## Trading (src/engine/trading.ts) -/

/-- Per-trade usage limits to avoid infinite conversions. -/
def BASE_TRADE_LIMITS (tradeId : String) : Option Int :=
  if tradeId == "herbs_for_tonic" then some 3
  else if tradeId == "ore_for_tonic" then some 3
  else none

/-- Reputation-adjusted usage limit for a trade (floored at 1). -/
def getEffectiveTradeLimit (state : GameState) (tradeId : String) : Option Int :=
  match BASE_TRADE_LIMITS tradeId with
  | none => none
  | some baseLimit =>
    let forestRep := (state.flags.reputation.map (·.forest)).getD 0
    let modifier : Int :=
      if forestRep ≥ 20 then 2
      else if forestRep ≥ 10 then 1
      else if forestRep ≤ -15 then -2
      else if forestRep ≤ -5 then -1
      else 0
    some (max 1 (baseLimit + modifier))

/-- Whether the trade's usage limit has not been exhausted. -/
def canUseTrade (state : GameState) (tradeId : String) : Bool :=
  match getEffectiveTradeLimit state tradeId with
  | none => true
  | some limit =>
    let used := (objGet state.tradeUsage tradeId).getD 0
    used < limit

/-- Checks if the player can afford a trade. -/
def canAffordTrade (state : GameState) (trade : TradeOffer) : Bool :=
  trade.costs.all (fun cost => countItem state cost.itemId ≥ cost.quantity)

/-- Applies a trade: removes costs, adds rewards, increments the usage counter. -/
def applyTrade (state : GameState) (trade : TradeOffer) : ActionResult :=
  let afterCosts :=
    trade.costs.foldl (fun st cost => removeItems st cost.itemId cost.quantity) state
  let afterRewards :=
    trade.rewards.foldl (fun st reward => addItemToInventory st reward.itemId reward.quantity)
      afterCosts
  let used := (objGet afterRewards.tradeUsage trade.id).getD 0
  let newState :=
    { afterRewards with tradeUsage := objSet afterRewards.tradeUsage trade.id (used + 1) }
  { state := newState, logEntries := [mkLog .system trade.label] }

/-- Gets a trade offer by id. -/
def getTradeById (id : String) : Option TradeOffer :=
  RANGER_TRADES.find? (fun t => t.id == id)

/-! ## Action dispatcher (src/engine/actions.ts) -/

/-- Helper to potentially trigger an encounter after movement or gathering. -/
def maybeTriggerEncounter (state : GameState) (logEntries : List LogEntry)
    (d : Draws) : ActionResult :=
  if isInEncounter state ∨ truthy state.flags.runEnded then
    { state := state, logEntries := logEntries }
  else
    match getRandomCreatureForLocation state.currentLocation d.creatureIdx with
    | none => { state := state, logEntries := logEntries }
    | some creature =>
      let tier := getForestRepTier state
      let chance0 := getEncounterChance state
      let chance :=
        if tier = .hostile then min 0.6 (chance0 + 0.15)
        else if tier = .uneasy then min 0.5 (chance0 + 0.05)
        else chance0
      if d.spawnRoll ≥ chance then { state := state, logEntries := logEntries }
      else
        let forest := (state.flags.reputation.map (·.forest)).getD 0
        if (tier = .favour ∨ tier = .revered) ∧
            d.spareRoll < min 0.25 ((forest : Rat) / 100) then
          { state := state,
            logEntries := logEntries ++
              [mkLog .narration "Something in the Wilds shifts. Whatever was stalking you lets you pass this time."] }
        else
          let newState := createEncounterState state creature
          let flavor := createForestRepEncounterFlavor state creature.name
          let encounterLog := createEncounterLog state creature
          let logsToAdd :=
            match flavor with
            | some f => [f, encounterLog]
            | none => [encounterLog]
          { state := newState, logEntries := logEntries ++ logsToAdd }

/-- Moves the player to a new location, validating reachability. -/
def moveTo (state : GameState) (destination : LocationId) (d : Draws) : ActionResult :=
  if truthy state.flags.runEnded then
    { state := state,
      logEntries := [mkLog .system "Your journey in this run has ended. You cannot move."] }
  else
    let currentLocation := getLocation state.currentLocation
    let destinationLocation := getLocation destination
    let exits := currentLocation.exits.map (·.2)
    if destination ∉ exits then
      { state := state,
        logEntries :=
          [mkLog .narration ("You cannot go to " ++ destinationLocation.name ++ " from here.")] }
    else
      let newState := { state with currentLocation := destination }
      let description := getLocationDescription newState
      let moveLog :=
        mkLog .narration ("You move to " ++ destinationLocation.name ++ ". " ++ description)
      let next :=
        if destination = .deep_wilds then
          match getQuestState newState "hermits_glow" with
          | some hermitsQuest =>
            if hermitsQuest.status = .active ∧ hermitsQuest.step == "unlocked" then
              let s1 := setQuestStep newState "hermits_glow" "found_glow"
              let currentRep := s1.flags.reputation.getD { forest := 0 }
              let s2 :=
                { s1 with flags :=
                    { s1.flags with
                        reputation := some { currentRep with forest := currentRep.forest + 2 } } }
              (s2,
                [moveLog,
                 mkLog .quest "Quest updated: Hermit\x27s Glow (you have found the glow).",
                 mkLog .system "Forest regard increases slightly. (+2)"])
            else (newState, [moveLog])
          | none => (newState, [moveLog])
        else (newState, [moveLog])
      maybeTriggerEncounter next.1 next.2 d

/-- Performs a sense action, revealing sensory information about the location. -/
def sense (state : GameState) (d : Draws) : ActionResult :=
  if truthy state.flags.runEnded then
    { state := state,
      logEntries := [mkLog .system "Your journey in this run has ended."] }
  else
    let logEntries :=
      [mkLog .narration
        (senseAt state.currentLocation state.flags.groveHealed
          state.flags.glowCommuneComplete d.textIdxA)]
    let echoesQuest := getQuestState state "echoes_at_the_lake"
    let shouldRevealEcho : Bool :=
      match echoesQuest with
      | some q =>
        q.status == QuestStatus.active && q.step == "investigate_lake" &&
          state.currentLocation == .lake && !(truthy state.flags.lakeEchoesFound)
      | none => false
    if shouldRevealEcho then
      let s1 := setQuestStep state "echoes_at_the_lake" "return_to_hermit"
      let s2 := { s1 with flags := { s1.flags with lakeEchoesFound := some true } }
      { state := s2,
        logEntries := logEntries ++
          [mkLog .quest "The water mirrors someplace you have never stood. The Hermit should hear of this."] }
    else
      { state := state, logEntries := logEntries }

/-- Performs a gather action, collecting resources from the current location. -/
def gather (state : GameState) (d : Draws) : ActionResult :=
  if truthy state.flags.runEnded then
    { state := state,
      logEntries := [mkLog .system "Your journey in this run has ended."] }
  else
    -- MAX_HERBS = 5, MAX_WATER = 3, MAX_ORE = 4, MAX_LUMINOUS = 2
    let choice : Option String × Option String :=
      match state.currentLocation with
      | .wilds =>
        if state.gather.wildsHerbs ≥ 5 then
          (none, some "You search carefully, but taking more now would feel wrong.")
        else (some "forest_herb", none)
      | .deep_wilds =>
        if (state.gather.luminousFragments.getD 0) ≥ 2 then
          (none, some "The pale light here slips away. There are no more fragments to take.")
        else (some "luminous_fragment", none)
      | .lake =>
        if state.gather.lakeWater ≥ 3 then
          (none, some "The water lies still. Best not to take more right now.")
        else (some "lake_water", none)
      | .mine =>
        if state.gather.mineOre ≥ 4 then
          (none, some "The seams look thin here. You should leave the rest for now.")
        else (some "raw_ore", none)
      | _ => (none, none)
    let itemId := choice.1
    let overrideText := choice.2
    let newState :=
      match itemId with
      | none => state
      | some item =>
        let s := addItemToInventory state item 1
        if item == "forest_herb" then
          { s with gather := { s.gather with wildsHerbs := s.gather.wildsHerbs + 1 } }
        else if item == "lake_water" then
          { s with gather := { s.gather with lakeWater := s.gather.lakeWater + 1 } }
        else if item == "raw_ore" then
          { s with gather := { s.gather with mineOre := s.gather.mineOre + 1 } }
        else if item == "luminous_fragment" then
          { s with gather :=
              { s.gather with
                  luminousFragments := some ((s.gather.luminousFragments.getD 0) + 1) } }
        else s
    let newState :=
      match getQuestState newState "heal_the_grove" with
      | some healQuest =>
        if healQuest.status = .active ∧ healQuest.step == "gather_ingredients" ∧
            countItem newState "forest_herb" ≥ 3 ∧ countItem newState "lake_water" ≥ 1 then
          setQuestStep newState "heal_the_grove" "perform_ritual"
        else newState
      | none => newState
    let gatherText :=
      match overrideText with
      | some t => t
      | none =>
        let base := gatherAt state.currentLocation d.textIdxA
        match itemId with
        | none => base
        | some item =>
          let progress :=
            if item == "forest_herb" then
              " (" ++ toString newState.gather.wildsHerbs ++ "/5 gathered)"
            else if item == "lake_water" then
              " (" ++ toString newState.gather.lakeWater ++ "/3 gathered)"
            else if item == "raw_ore" then
              " (" ++ toString newState.gather.mineOre ++ "/4 gathered)"
            else if item == "luminous_fragment" then
              " (" ++ toString (newState.gather.luminousFragments.getD 0) ++ "/2 gathered)"
            else ""
          base ++ progress
    maybeTriggerEncounter newState [mkLog .narration gatherText] d

/-- The caretaker's branching dialogue; `none` means fall through to the
generic handling at the bottom of `talkTo`. -/
def talkToCaretaker (state : GameState) (npc : NpcData)
    (npcMemory : List (String × Int)) (timesSpoken : Int) (firstTime : Bool) :
    Option ActionResult :=
  let healQuest := getQuestState state "heal_the_grove"
  let groveHealed := truthy state.flags.groveHealed
  let withMemory (s : GameState) : GameState :=
    { s with flags :=
        { s.flags with npcMemory := some (objSet npcMemory npc.id (timesSpoken + 1)) } }
  -- Branch 1: quest not started
  if (match healQuest with
      | none => true
      | some q => q.status == QuestStatus.not_started) then
    let logEntries :=
      [ mkLog .narration (npc.name ++ ": Welcome back, traveler. The Sanctum has been quiet."),
        mkLog .narration (npc.name ++ ": The Wilds feel uneasy. The grove near the forest edge is… wrong somehow."),
        mkLog .narration (npc.name ++ ": If you feel called, you could help heal it. Start by gathering herbs from the Wilds and water from the Lake.") ]
    let s1 := activateQuestIfNeeded state "heal_the_grove"
    let s2 := setQuestStep s1 "heal_the_grove" "gather_ingredients"
    some { state := withMemory s2, logEntries := logEntries }
  else
    match healQuest with
    | none => none
    | some q =>
      -- Branch 2: quest active, gathering ingredients, grove not healed yet
      if q.status == QuestStatus.active ∧ q.step == "gather_ingredients" ∧ ¬ groveHealed then
        let logEntries :=
          if firstTime then
            [ mkLog .narration (npc.name ++ ": You\x27ve sensed it too, haven\x27t you? The grove is still unsettled."),
              mkLog .narration (npc.name ++ ": Gather herbs from the Wilds and water from the Lake, then perform the ritual out there. Only then will it ease.") ]
          else
            [ mkLog .narration (npc.name ++ " gives you a small nod, already familiar with your presence.") ]
        some { state := withMemory state, logEntries := logEntries }
      -- Branch 3: quest active, returning to caretaker, grove healed
      else if q.status == QuestStatus.active ∧ q.step == "return_to_caretaker" ∧ groveHealed then
        let logEntries :=
          [ mkLog .narration (npc.name ++ ": You did something out there, didn\x27t you? The Wilds feel different. Thank you.") ]
        let s1 := setQuestStep state "heal_the_grove" "grove_healed"
        let s2 := setQuestStatus s1 "heal_the_grove" .completed
        some { state := withMemory s2, logEntries := logEntries }
      -- Branch 4: quest completed
      else if q.status == QuestStatus.completed then
        let logEntries :=
          if firstTime then
            [ mkLog .narration (npc.name ++ ": Welcome back, traveler. The Sanctum breathes easier now."),
              mkLog .narration (npc.name ++ ": The grove is calm again. Whatever you did, it mattered.") ]
          else
            [ mkLog .narration (npc.name ++ " gives you a small nod, already familiar with your presence.") ]
        some { state := withMemory state, logEntries := logEntries }
      else none

/-- The hermit's branching dialogue. Returns the log entries pushed by
non-returning branches together with an optional early-returned result. -/
def talkToHermit (state : GameState) (npc : NpcData)
    (npcMemory : List (String × Int)) (timesSpoken : Int) :
    List LogEntry × Option ActionResult :=
  let echoesQuest := getQuestState state "echoes_at_the_lake"
  let hermitsGlowQuest := getQuestState state "hermits_glow"
  let questMemoryUpdate := objSet npcMemory npc.id (timesSpoken + 1)
  let echoesReport : Bool :=
    match echoesQuest with
    | some q => q.status == QuestStatus.active && q.step == "return_to_hermit"
    | none => false
  -- Echoes at the Lake: report back
  if echoesReport then
    let logEntries :=
      [ mkLog .narration (npc.name ++ ": \"You felt it too, didn\x27t you? The lake humming with somewhere else.\""),
        mkLog .narration (npc.name ++ ": \"Those echoes do not belong to the Wilds. Thank you for telling me.\"") ]
    let s1 := setQuestStep state "echoes_at_the_lake" "completed"
    let s2 := setQuestStatus s1 "echoes_at_the_lake" .completed
    let currentRep := s2.flags.reputation.getD { forest := 0 }
    let s3 :=
      { s2 with flags :=
          { s2.flags with
              reputation := some { currentRep with forest := currentRep.forest + 3 },
              npcMemory := some questMemoryUpdate } }
    let r : ActionResult :=
      { state := s3,
        logEntries := logEntries ++
          [ mkLog .quest "Quest completed: Echoes at the Lake.",
            mkLog .system "Forest regard increases. (+3 favour)" ] }
    ([], some r)
  else
    let echoesCompleted : Bool :=
      match echoesQuest with
      | some q => q.status == QuestStatus.completed
      | none => false
    let glowOffer : Bool :=
      echoesCompleted &&
        (match hermitsGlowQuest with
         | none => true
         | some g => g.status == QuestStatus.not_started)
    let glowActive : Bool :=
      echoesCompleted &&
        (match hermitsGlowQuest with
         | some g => g.status == QuestStatus.active
         | none => false)
    if glowOffer then
      let logEntries :=
        [ mkLog .narration (npc.name ++ ": \"Since the echoes, I\x27ve seen a pale glow deeper in the Wilds.\""),
          mkLog .narration (npc.name ++ ": \"If you still have the patience for mysteries, you might seek it out soon.\"") ]
      let s1 := activateQuestIfNeeded state "hermits_glow"
      let s2 := setQuestStatus s1 "hermits_glow" .active
      let s3 := setQuestStep s2 "hermits_glow" "unlocked"
      let s4 :=
        { s3 with flags := { s3.flags with npcMemory := some questMemoryUpdate } }
      let r : ActionResult :=
        { state := s4,
          logEntries := logEntries ++
            [mkLog .quest "Quest started: Hermit\x27s Glow."] }
      ([], some r)
    else if glowActive then
      let logEntries :=
        [ mkLog .narration (npc.name ++ ": \"Those lights are still out there. When you’re ready, follow them.\"") ]
      let s1 :=
        { state with flags := { state.flags with npcMemory := some questMemoryUpdate } }
      ([], some { state := s1, logEntries := logEntries })
    else
      -- Luminous-fragment offer and delivery
      let hermitFragmentQuest := getQuestState state "hermit_fragment"
      let hasFragment : Bool := decide (countItem state "luminous_fragment" > 0)
      let fragmentOffer : Bool :=
        hasFragment &&
          (match hermitFragmentQuest with
           | none => true
           | some f => f.status == QuestStatus.not_started)
      if fragmentOffer then
        let logEntries :=
          [ mkLog .narration (npc.name ++ ": \"You found that pale shard? Give it to me — I would see what it contains.\","),
            mkLog .quest "Quest started: Hermit\x27s Gift (deliver a luminous fragment)." ]
        let s1 := activateQuestIfNeeded state "hermit_fragment"
        let s2 := setQuestStatus s1 "hermit_fragment" .active
        let s3 := setQuestStep s2 "hermit_fragment" "unlocked"
        let s4 :=
          { s3 with flags := { s3.flags with npcMemory := some questMemoryUpdate } }
        let r : ActionResult := { state := s4, logEntries := logEntries }
        ([], some r)
      else
        -- Glow completed: quiet acknowledgement (no early return)
        let glowDone : Bool :=
          match hermitsGlowQuest with
          | some g => g.status == QuestStatus.completed
          | none => false
        let acc :=
          if glowDone then
            [ mkLog .narration (npc.name ++ " studies you quietly. \"The Glow has taken your measure. We\x27ll see what that means for the rest of us.\"") ]
          else []
        let fragmentDeliver : Bool :=
          (match hermitFragmentQuest with
           | some f => f.status == QuestStatus.active
           | none => false) && hasFragment
        if fragmentDeliver then
          let logEntries := acc ++
            [ mkLog .narration (npc.name ++ ": \"Ah. Let me see that...\""),
              mkLog .narration "The Hermit studies the fragment and tucks it away with a small, grateful nod." ]
          let s1 := removeItems state "luminous_fragment" 1
          let s2 := setQuestStep s1 "hermit_fragment" "delivered"
          let s3 := setQuestStatus s2 "hermit_fragment" .completed
          let s4 := (applyXp s3 5).1
          let currentRep := s4.flags.reputation.getD { forest := 0 }
          let s5 :=
            { s4 with flags :=
                { s4.flags with
                    reputation := some { currentRep with forest := currentRep.forest + 2 } } }
          let s6 :=
            { s5 with flags := { s5.flags with npcMemory := some questMemoryUpdate } }
          let r : ActionResult :=
            { state := s6,
              logEntries := logEntries ++
                [mkLog .system "The Hermit thanks you. You gain 5 XP and forest regard increases. (+2)"] }
          ([], some r)
        else
          (acc, none)

/-- The shared bottom section of `talkTo`: ranger special-case / generic
intro or repeat lines, then the times-spoken memory update. -/
def talkToGenericTail (state : GameState) (npc : NpcData)
    (npcMemory : List (String × Int)) (timesSpoken : Int) (firstTime : Bool)
    (acc : List LogEntry) : ActionResult :=
  let logEntries :=
    if npc.id == "ranger_trader" then
      if firstTime then
        acc ++ npc.introLines.map (fun line => mkLog .narration (npc.name ++ ": " ++ line))
      else
        acc ++
          [ mkLog .narration (npc.name ++ " glances up, already familiar with your needs here."),
            mkLog .narration (npc.name ++ ": \"Supplies are as before. Take what you need — within reason.\"") ]
    else
      if firstTime then
        acc ++ npc.introLines.map (fun line => mkLog .narration (npc.name ++ ": " ++ line))
      else
        acc ++ [mkLog .narration (npc.name ++ " gives you a small nod, already familiar with your presence.")]
  let updatedNpcMemory := objSet npcMemory npc.id (timesSpoken + 1)
  let newState :=
    { state with flags := { state.flags with npcMemory := some updatedNpcMemory } }
  { state := newState, logEntries := logEntries }

/-- Performs a talk action, initiating dialogue with an NPC. -/
def talkTo (state : GameState) (npcId : NpcId) : ActionResult :=
  if truthy state.flags.runEnded then
    { state := state,
      logEntries := [mkLog .system "Your journey in this run has ended."] }
  else
    let npc := npcs npcId
    if npc.location ≠ state.currentLocation then
      let here := getLocation state.currentLocation
      { state := state,
        logEntries :=
          [mkLog .system ("You look around " ++ here.name ++ ", but " ++ npc.name ++ " is not here.")] }
    else
      let npcMemory := state.flags.npcMemory.getD []
      let timesSpoken := (objGet npcMemory npc.id).getD 0
      let firstTime := timesSpoken == 0
      match (if npcId = .caretaker then
              talkToCaretaker state npc npcMemory timesSpoken firstTime
             else none) with
      | some r => r
      | none =>
        let hermitRes :=
          if npc.id == "hermit" then talkToHermit state npc npcMemory timesSpoken
          else ([], none)
        match hermitRes.2 with
        | some r => r
        | none => talkToGenericTail state npc npcMemory timesSpoken firstTime hermitRes.1

/-- Performs an attack action during an encounter. -/
def attack (state : GameState) (d : Draws) : ActionResult :=
  match state.currentEncounter with
  | none =>
    { state := state, logEntries := [mkLog .system "There is nothing here to strike."] }
  | some encounter =>
    match creatureById encounter.creatureId with
    | none =>
      { state := { state with currentEncounter := none },
        logEntries := [mkLog .system "The threat wavers and slips away."] }
    | some creature =>
      let playerDamage := max 1 (4 - creature.stats.defence)
      let creatureDamage := max 0 (creature.stats.attack - 1)
      let creatureHpAfter := max 0 (encounter.hp - playerDamage)
      let hitLog := mkLog .combat (hitCreature creature.name playerDamage d.textIdxA)
      if creatureHpAfter ≤ 0 then
        let s1 := { state with currentEncounter := none }
        let killLog := mkLog .combat (creature.name ++ " unravels and is gone.")
        let xpRes := applyXp s1 10
        let xpLog :=
          if xpRes.2 then
            mkLog .system "You feel the Wilds settle differently around you. You have grown stronger."
          else
            mkLog .system "You gain 10 XP."
        -- Special drop: will-o'-wisp leaves a faint luminous fragment
        if encounter.creatureId == "will_o_wisp" then
          let s2 := addItemToInventory xpRes.1 "luminous_fragment" 1
          { state := s2,
            logEntries := [hitLog, killLog, xpLog,
              mkLog .narration "From the fading light you gather a pale shard — a luminous fragment."] }
        else
          { state := xpRes.1, logEntries := [hitLog, killLog, xpLog] }
      else
        let playerHpAfter := max 0 (state.player.hp - creatureDamage)
        let hitText0 := creatureHitsPlayer creature.name creatureDamage d.textIdxB
        let applied0 := truthy encounter.hasRepFlavourApplied
        let flavoured :=
          if ¬ applied0 ∧ creatureDamage > 0 then
            match getRepFlavourForCreatureHit (getForestRepTier state) with
            | some repFlavour => (hitText0 ++ " " ++ repFlavour, true)
            | none => (hitText0, applied0)
          else (hitText0, applied0)
        let s1 :=
          { state with
              player := { state.player with hp := playerHpAfter },
              currentEncounter := some
                { encounter with
                    hp := creatureHpAfter,
                    hasRepFlavourApplied := some flavoured.2 } }
        let retaliateLog := mkLog .combat flavoured.1
        if playerHpAfter ≤ 0 then
          let s2 :=
            { s1 with
                player := { s1.player with hp := 0 },
                currentEncounter := none,
                flags :=
                  { s1.flags with
                      runEnded :=
                        if truthy s1.flags.runEnded then s1.flags.runEnded else some true } }
          if ¬ truthy state.flags.runEnded then
            { state := s2,
              logEntries := [hitLog, retaliateLog,
                mkLog .narration "Your vision blurs and the Whispering Wilds close in. This run has ended."] }
          else
            { state := s2, logEntries := [hitLog, retaliateLog] }
        else
          { state := s1, logEntries := [hitLog, retaliateLog] }

/-- Attempts to flee from the current encounter. -/
def attemptEscape (state : GameState) (d : Draws) : ActionResult :=
  match state.currentEncounter with
  | none =>
    { state := state, logEntries := [mkLog .system "There is nothing to escape from."] }
  | some encounter =>
    match creatureById encounter.creatureId with
    | none =>
      { state := { state with currentEncounter := none },
        logEntries := [mkLog .system "The presence fades as suddenly as it came."] }
    | some creature =>
      -- 70% chance to escape cleanly
      if d.escapeRoll < 0.7 then
        { state := { state with currentEncounter := none },
          logEntries := [mkLog .combat (escapeSuccess creature.name d.textIdxA)] }
      else
        -- Failed escape: creature gets a free hit
        let creatureDamage := max 0 (creature.stats.attack - 1)
        let newHp := max 0 (state.player.hp - creatureDamage)
        let s1 := { state with player := { state.player with hp := newHp } }
        let failLog := mkLog .combat (escapeFail creature.name creatureDamage d.textIdxA)
        if newHp ≤ 0 then
          let s2 :=
            { s1 with
                player := { s1.player with hp := 0 },
                currentEncounter := none,
                flags :=
                  { s1.flags with
                      runEnded :=
                        if truthy s1.flags.runEnded then s1.flags.runEnded else some true } }
          if ¬ truthy state.flags.runEnded then
            { state := s2,
              logEntries := [failLog,
                mkLog .narration "Your vision blurs and the Whispering Wilds close in. This run has ended."] }
          else
            { state := s2, logEntries := [failLog] }
        else
          { state := s1, logEntries := [failLog] }

/-- Performs the Grove Ritual in the Wilds, consuming items and healing the grove. -/
def performGroveRitual (state : GameState) : ActionResult :=
  if truthy state.flags.runEnded then
    { state := state,
      logEntries := [mkLog .system "Your journey in this run has ended."] }
  else if state.currentLocation ≠ .wilds then
    { state := state,
      logEntries := [mkLog .system "The ritual belongs to the grove in the Wilds, not here."] }
  else
    let healQuest := getQuestState state "heal_the_grove"
    let groveHealedAlready := truthy state.flags.groveHealed
    let questCompleted : Bool :=
      match healQuest with
      | some q => q.status == QuestStatus.completed
      | none => false
    if groveHealedAlready || questCompleted then
      { state := state,
        logEntries :=
          [mkLog .narration "The grove already stands in still, luminous peace. There is nothing more to mend here."] }
    else
      let ritualStepActive : Bool :=
        match healQuest with
        | some q =>
          q.status == QuestStatus.active &&
            (q.step == "gather_ingredients" || q.step == "perform_ritual")
        | none => false
      if ¬ ritualStepActive then
        { state := state,
          logEntries :=
            [mkLog .narration "You feel the grove watching, waiting. The ritual is not yet ready to be performed."] }
      else
        let herbs := countItem state "forest_herb"
        let water := countItem state "lake_water"
        if herbs < 3 ∨ water < 1 then
          { state := state,
            logEntries :=
              [mkLog .system "You do not yet have what the grove asks of you (3x Forest Herb, 1x Lake Water)."] }
        else
          let s1 := removeItems state "forest_herb" 3
          let s2 := removeItems s1 "lake_water" 1
          let s3 := activateQuestIfNeeded s2 "heal_the_grove"
          let s4 := setQuestStep s3 "heal_the_grove" "grove_healed"
          let s5 := setQuestStatus s4 "heal_the_grove" .completed
          let currentRep := s5.flags.reputation.getD { forest := 0 }
          let s6 :=
            { s5 with flags :=
                { s5.flags with
                    groveHealed := some true,
                    lakeEchoesFound := some false,
                    reputation := some { currentRep with forest := currentRep.forest + 10 } } }
          let s7 := activateQuestIfNeeded s6 "echoes_at_the_lake"
          let s8 := setQuestStatus s7 "echoes_at_the_lake" .active
          let s9 := setQuestStep s8 "echoes_at_the_lake" "investigate_lake"
          { state := s9,
            logEntries :=
              [ mkLog .narration "You arrange herbs and water, breathing with the grove as you begin the ritual.",
                mkLog .narration "For a long moment, nothing. Then the tension in the Wilds loosens, like a held breath released.",
                mkLog .quest "Quest updated: the grove is calmer now.",
                mkLog .system "You sense the Wilds regard you differently now.",
                mkLog .quest "Far off, the Lake seems to shiver with new echoes." ] }

/-- Performs the Deeper Wilds communion set-piece for Hermit\x27s Glow. -/
def communeWithGlow (state : GameState) : ActionResult :=
  if truthy state.flags.runEnded then
    { state := state,
      logEntries := [mkLog .system "Your journey in this run has ended."] }
  else if state.currentLocation ≠ .deep_wilds then
    { state := state, logEntries := [mkLog .system "The Glow is not here."] }
  else
    match getQuestState state "hermits_glow" with
    | none =>
      { state := state,
        logEntries :=
          [mkLog .narration "The strange light flickers at the edge of your vision, but it does not yet answer you."] }
    | some glowQuest =>
      if glowQuest.status ≠ .active then
        { state := state,
          logEntries :=
            [mkLog .narration "The strange light flickers at the edge of your vision, but it does not yet answer you."] }
      else if glowQuest.step ≠ "found_glow" ∧ glowQuest.step ≠ "commune_with_glow" then
        { state := state,
          logEntries :=
            [mkLog .narration "The glow pulses faintly, waiting for something you have not yet done."] }
      else
        -- First time: play the full set-piece and advance step
        let firstPart :=
          if glowQuest.step == "found_glow" then
            (setQuestStep state "hermits_glow" "commune_with_glow",
              [ mkLog .narration "You step into the circle of pale motes. They rise, slow and deliberate, like breath drawn in.",
                mkLog .narration "For a moment you feel the Wilds looking through you, weighing every choice you have made here." ])
          else (state, [])
        -- Complete the communion: reward reputation and mark quest complete
        let s1 := firstPart.1
        let currentRep := s1.flags.reputation.getD { forest := 0 }
        let s2 :=
          { s1 with flags :=
              { s1.flags with
                  reputation := some { currentRep with forest := currentRep.forest + 8 },
                  glowCommuneComplete := some true } }
        let s3 := setQuestStatus s2 "hermits_glow" .completed
        let s4 := setQuestStep s3 "hermits_glow" "completed"
        { state := s4,
          logEntries := firstPart.2 ++
            [ mkLog .narration "The light sinks into the roots and into you. The forest no longer watches from a distance — it knows you now.",
              mkLog .narration "You sense a new steadiness in the Wilds, and a quiet thread binding you back to the Hermit." ] }

/-- Performs a trade at the Trader\x27s Post. -/
def performTrade (state : GameState) (tradeId : String) : ActionResult :=
  if truthy state.flags.runEnded then
    { state := state,
      logEntries := [mkLog .system "Your journey in this run has ended."] }
  else if state.currentLocation ≠ .trader_post then
    { state := state,
      logEntries := [mkLog .system "You need to be at the Trader\x27s Post to make that deal."] }
  else
    match getTradeById tradeId with
    | none =>
      { state := state,
        logEntries := [mkLog .system "The Ranger doesn\x27t seem to understand that trade."] }
    | some trade =>
      if ¬ canAffordTrade state trade then
        { state := state,
          logEntries := [mkLog .system "You don\x27t have what you need for that trade."] }
      else if ¬ canUseTrade state trade.id then
        { state := state,
          logEntries := [mkLog .system "The Ranger shakes their head — that deal is no longer available."] }
      else
        applyTrade state trade

/-- Uses a healing tonic to restore HP. -/
def consumeHealingTonic (state : GameState) : ActionResult :=
  if truthy state.flags.runEnded then
    { state := state,
      logEntries := [mkLog .system "Your journey in this run has ended."] }
  else
    let tonicCount := countItem state "healing_tonic"
    if tonicCount < 1 then
      { state := state,
        logEntries := [mkLog .system "You do not have a healing tonic."] }
    else
      let s1 := removeItems state "healing_tonic" 1
      let healAmount : Int := 8
      let newHp := min s1.player.maxHp (s1.player.hp + healAmount)
      let actualHeal := newHp - s1.player.hp
      let s2 := { s1 with player := { s1.player with hp := newHp } }
      let healLog :=
        if actualHeal > 0 then
          mkLog .system
            ("You feel warmth spread through your body. You restore " ++ toString actualHeal ++ " HP.")
        else
          mkLog .system "The tonic has no effect—you are already at full health."
      { state := s2,
        logEntries :=
          [mkLog .narration "You uncork the vial and drink the sharp, bitter tonic.", healLog] }

/-! ## Operation sequences -/

/-- A player intent: one invocation of a dispatcher operation. -/
inductive GAction
  | move (dest : LocationId)
  | doSense
  | doGather
  | talk (npcId : NpcId)
  | doAttack
  | flee
  | ritual
  | commune
  | trade (tradeId : String)
  | tonic
deriving DecidableEq, Repr

/-- Applies one operation (with its random draws) to a state. -/
def stepAction (state : GameState) : GAction → Draws → GameState
  | .move dest, d => (moveTo state dest d).state
  | .doSense, d => (sense state d).state
  | .doGather, d => (gather state d).state
  | .talk npcId, _ => (talkTo state npcId).state
  | .doAttack, d => (attack state d).state
  | .flee, d => (attemptEscape state d).state
  | .ritual, _ => (performGroveRitual state).state
  | .commune, _ => (communeWithGlow state).state
  | .trade tradeId, _ => (performTrade state tradeId).state
  | .tonic, _ => (consumeHealingTonic state).state

/-- Runs a sequence of operations, each with its own draws. -/
def runActions (state : GameState) : List (GAction × Draws) → GameState
  | [] => state
  | (a, d) :: rest => runActions (stepAction state a d) rest

/-! ## Concrete states used by witnesses and counterexamples -/

/-- A baseline early-game state standing in the Wilds. -/
def stWilds : GameState :=
  { currentLocation := .wilds,
    player := { hp := 20, maxHp := 20, xp := 0, level := 1, inventory := [] },
    quests := [{ id := "heal_the_grove", name := "Heal the Grove",
                 step := "speak_to_caretaker", status := .not_started }],
    flags := { groveHealed := some false, npcMemory := some [],
               reputation := some { forest := 0 }, runEnded := some false },
    log := [],
    currentEncounter := none,
    gather := { wildsHerbs := 0, lakeWater := 0, mineOre := 0 },
    tradeUsage := [] }

/-- The baseline state after the run-ended latch has fired. -/
def stDead : GameState :=
  { stWilds with flags := { stWilds.flags with runEnded := some true } }

/-- A run-ended state still holding one healing tonic at reduced hp. -/
def stDeadTonic : GameState :=
  { stDead with
      player :=
        { stDead.player with
            hp := 5
            inventory := [{ itemId := "healing_tonic", quantity := 1 }] } }

/-- The baseline state in an encounter with a Wild Spirit at full creature hp. -/
def stEnc : GameState :=
  { stWilds with currentEncounter := some { creatureId := "wild_spirit", hp := 8 } }

/-- A state whose encounter references a creature id absent from the content
table (the will-o-wisp id referenced by the special-drop code has no entry). -/
def stGhost : GameState :=
  { stWilds with currentEncounter := some { creatureId := "will_o_wisp", hp := 8 } }

/-- A state in the Wilds with the grove quest completed and the grove healed. -/
def stDone : GameState :=
  { stWilds with
      quests := [{ id := "heal_the_grove", name := "Heal the Grove",
                   step := "grove_healed", status := .completed }],
      flags := { stWilds.flags with groveHealed := some true } }

/-- The completed-quest state standing in the Sanctum instead of the Wilds. -/
def stDoneSanctum : GameState :=
  { stDone with currentLocation := .sanctum }

/-- The baseline state standing at the Trader\x27s Post (empty inventory). -/
def stTrader : GameState :=
  { stWilds with currentLocation := .trader_post }

/-! ## Helper lemmas -/

/-- Function upsertQuestState leaves the narrative flags untouched. -/
theorem upsertQuestState_flags (s : GameState) (q : QuestState) :
    (upsertQuestState s q).flags = s.flags := rfl

/-- Function ensureQuestStateExists leaves the narrative flags untouched. -/
theorem ensureQuestStateExists_flags (s : GameState) (id : String) :
    (ensureQuestStateExists s id).1.flags = s.flags := by
  unfold ensureQuestStateExists
  split
  · rfl
  · split
    · rfl
    · rfl

/-- Function setQuestStep leaves the narrative flags untouched. -/
theorem setQuestStep_flags (s : GameState) (id step : String) :
    (setQuestStep s id step).flags = s.flags := by
  have hf := ensureQuestStateExists_flags s id
  unfold setQuestStep
  rcases hE : ensureQuestStateExists s id with ⟨s1, q⟩
  rw [hE] at hf
  cases q with
  | none => rfl
  | some quest => simpa [upsertQuestState] using hf

/-- Function setQuestStatus leaves the narrative flags untouched. -/
theorem setQuestStatus_flags (s : GameState) (id : String) (st : QuestStatus) :
    (setQuestStatus s id st).flags = s.flags := by
  have hf := ensureQuestStateExists_flags s id
  unfold setQuestStatus
  rcases hE : ensureQuestStateExists s id with ⟨s1, q⟩
  rw [hE] at hf
  cases q with
  | none => rfl
  | some quest => simpa [upsertQuestState] using hf

/-- Function activateQuestIfNeeded leaves the narrative flags untouched. -/
theorem activateQuestIfNeeded_flags (s : GameState) (id : String) :
    (activateQuestIfNeeded s id).flags = s.flags := by
  have hf := ensureQuestStateExists_flags s id
  unfold activateQuestIfNeeded
  rcases hE : ensureQuestStateExists s id with ⟨s1, q⟩
  rw [hE] at hf
  cases q with
  | none => rfl
  | some quest =>
    dsimp only
    split
    · exact hf
    · split
      · split
        · exact hf
        · split
          · exact hf
          · simpa [upsertQuestState] using hf
      · exact hf

/-- Function applyXp leaves the narrative flags untouched. -/
theorem applyXp_flags (s : GameState) (a : Int) :
    ((applyXp s a).1).flags = s.flags := by
  unfold applyXp
  dsimp only
  split
  · rfl
  · rfl

/-- Function removeItems leaves the narrative flags untouched. -/
theorem removeItems_flags (s : GameState) (i : String) (q : Int) :
    (removeItems s i q).flags = s.flags := rfl

/-- Function addItemToInventory leaves the narrative flags untouched. -/
theorem addItemToInventory_flags (s : GameState) (i : String) (q : Int) :
    (addItemToInventory s i q).flags = s.flags := rfl

/-- Operation moveTo preserves a latched run-ended flag. -/
theorem runEnded_moveTo (s : GameState) (dest : LocationId) (d : Draws)
    (h : s.flags.runEnded = some true) :
    (moveTo s dest d).state.flags.runEnded = some true := by
  unfold moveTo
  simp [truthy, h]

/-- Operation sense preserves a latched run-ended flag. -/
theorem runEnded_sense (s : GameState) (d : Draws)
    (h : s.flags.runEnded = some true) :
    (sense s d).state.flags.runEnded = some true := by
  unfold sense
  simp [truthy, h]

/-- Operation gather preserves a latched run-ended flag. -/
theorem runEnded_gather (s : GameState) (d : Draws)
    (h : s.flags.runEnded = some true) :
    (gather s d).state.flags.runEnded = some true := by
  unfold gather
  simp [truthy, h]

/-- Operation talkTo preserves a latched run-ended flag. -/
theorem runEnded_talkTo (s : GameState) (npcId : NpcId)
    (h : s.flags.runEnded = some true) :
    (talkTo s npcId).state.flags.runEnded = some true := by
  unfold talkTo
  simp [truthy, h]

/-- Operation performGroveRitual preserves a latched run-ended flag. -/
theorem runEnded_ritual (s : GameState)
    (h : s.flags.runEnded = some true) :
    (performGroveRitual s).state.flags.runEnded = some true := by
  unfold performGroveRitual
  simp [truthy, h]

/-- Operation communeWithGlow preserves a latched run-ended flag. -/
theorem runEnded_commune (s : GameState)
    (h : s.flags.runEnded = some true) :
    (communeWithGlow s).state.flags.runEnded = some true := by
  unfold communeWithGlow
  simp [truthy, h]

/-- Operation performTrade preserves a latched run-ended flag. -/
theorem runEnded_trade (s : GameState) (tradeId : String)
    (h : s.flags.runEnded = some true) :
    (performTrade s tradeId).state.flags.runEnded = some true := by
  unfold performTrade
  simp [truthy, h]

/-- Operation consumeHealingTonic preserves a latched run-ended flag. -/
theorem runEnded_tonic (s : GameState)
    (h : s.flags.runEnded = some true) :
    (consumeHealingTonic s).state.flags.runEnded = some true := by
  unfold consumeHealingTonic
  simp [truthy, h]

/-- Operation attack preserves a latched run-ended flag. -/
theorem runEnded_attack (s : GameState) (d : Draws)
    (h : s.flags.runEnded = some true) :
    (attack s d).state.flags.runEnded = some true := by
  unfold attack
  dsimp only
  split
  · exact h
  · split
    · exact h
    · split
      · split_ifs <;> simp only [addItemToInventory_flags, applyXp_flags] <;> exact h
      · split_ifs <;> simp [truthy, h]

/-- Operation attemptEscape preserves a latched run-ended flag. -/
theorem runEnded_escape (s : GameState) (d : Draws)
    (h : s.flags.runEnded = some true) :
    (attemptEscape s d).state.flags.runEnded = some true := by
  unfold attemptEscape
  dsimp only
  split
  · exact h
  · split
    · exact h
    · split_ifs <;> simp [truthy, h]

/-- C1: the run-ended flag is a one-way latch — starting from any state in
which `flags.runEnded` is true, no sequence of the dispatcher operations
(move, sense, gather, talk, attack, flee, ritual, commune, trade, consume
tonic), under any random draws, ever produces a state in which it is false. -/
theorem c1_run_ended_latch (s : GameState) (acts : List (GAction × Draws))
    (h : s.flags.runEnded = some true) :
    (runActions s acts).flags.runEnded = some true := by
  induction acts generalizing s with
  | nil => exact h
  | cons p rest ih =>
    obtain ⟨a, d⟩ := p
    simp only [runActions]
    cases a with
    | move dest => exact ih _ (runEnded_moveTo s dest d h)
    | doSense => exact ih _ (runEnded_sense s d h)
    | doGather => exact ih _ (runEnded_gather s d h)
    | talk npcId => exact ih _ (runEnded_talkTo s npcId h)
    | doAttack => exact ih _ (runEnded_attack s d h)
    | flee => exact ih _ (runEnded_escape s d h)
    | ritual => exact ih _ (runEnded_ritual s h)
    | commune => exact ih _ (runEnded_commune s h)
    | trade tradeId => exact ih _ (runEnded_trade s tradeId h)
    | tonic => exact ih _ (runEnded_tonic s h)

/-- Witness for C1: a concrete latched state and concrete operation sequence. -/
theorem c1_run_ended_latch_witness :
    stDead.flags.runEnded = some true ∧
      (runActions stDead
        [(.doAttack, {}), (.doGather, {}), (.tonic, {})]).flags.runEnded = some true :=
  ⟨by decide,
    c1_run_ended_latch stDead [(.doAttack, {}), (.doGather, {}), (.tonic, {})] (by decide)⟩

/-- C2: trade atomicity — at the trading post, for a known trade offer that is
unaffordable or whose usage limit is exhausted, `performTrade` returns a state
structurally identical to the input together with exactly one explanatory log
entry. -/
theorem c2_trade_atomicity (s : GameState) (tradeId : String) (trade : TradeOffer)
    (_hloc : s.currentLocation = .trader_post)
    (htrade : getTradeById tradeId = some trade)
    (hfail : canAffordTrade s trade = false ∨ canUseTrade s trade.id = false) :
    (performTrade s tradeId).state = s ∧ (performTrade s tradeId).logEntries.length = 1 := by
  unfold performTrade
  rw [htrade]
  dsimp only
  split_ifs <;>
    first
      | exact ⟨rfl, rfl⟩
      | (exfalso; rcases hfail with hf | hf <;> simp_all)

/-- Witness for C2: the herbs-for-tonic trade with an empty inventory. -/
theorem c2_trade_atomicity_witness :
    (performTrade stTrader "herbs_for_tonic").state = stTrader ∧
      (performTrade stTrader "herbs_for_tonic").logEntries.length = 1 :=
  c2_trade_atomicity stTrader "herbs_for_tonic"
    { id := "herbs_for_tonic", label := "Trade 3x Forest Herb for 1x Healing Tonic",
      costs := [⟨"forest_herb", 3⟩], rewards := [⟨"healing_tonic", 1⟩] }
    (by decide) (by decide) (Or.inl (by decide))

/-- Function applyXp adds the amount to xp, floored at zero. -/
theorem applyXp_xp (s : GameState) (a : Int) :
    ((applyXp s a).1).player.xp = max 0 (s.player.xp + a) := by
  unfold applyXp
  dsimp only
  split
  · rfl
  · rfl

/-- Function applyXp never lowers hp when the hp-at-most-maxHp invariant holds. -/
theorem applyXp_hp_ge (s : GameState) (a : Int) (h : s.player.hp ≤ s.player.maxHp) :
    s.player.hp ≤ ((applyXp s a).1).player.hp := by
  unfold applyXp
  dsimp only
  split
  · rename_i hlvl
    dsimp only
    omega
  · exact le_rfl

/-- Function applyXp leaves the encounter untouched. -/
theorem applyXp_encounter (s : GameState) (a : Int) :
    ((applyXp s a).1).currentEncounter = s.currentEncounter := by
  unfold applyXp
  dsimp only
  split
  · rfl
  · rfl

/-- Function addItemToInventory leaves the encounter untouched. -/
theorem addItemToInventory_encounter (s : GameState) (i : String) (q : Int) :
    (addItemToInventory s i q).currentEncounter = s.currentEncounter := rfl

/-- Function addItemToInventory leaves xp untouched. -/
theorem addItemToInventory_xp (s : GameState) (i : String) (q : Int) :
    (addItemToInventory s i q).player.xp = s.player.xp := rfl

/-- Function addItemToInventory leaves hp untouched. -/
theorem addItemToInventory_hp (s : GameState) (i : String) (q : Int) :
    (addItemToInventory s i q).player.hp = s.player.hp := rfl

/-- C3: combat resolution — against a creature from the content table with
defence `d` and attack `a`, `attack` reduces the encounter hp by exactly
`max 1 (4 - d)` clamped at zero; if the creature survives, the player takes
`max 0 (a - 1)` clamped at zero (and the encounter persists at the new hp
exactly when the player also survives); if the creature dies, the encounter is
cleared, 10 XP is granted, and the player takes no damage this turn. -/
theorem c3_combat_resolution (s : GameState) (enc : EncounterState)
    (c : CreatureData) (d : Draws)
    (hEnc : s.currentEncounter = some enc)
    (hC : creatureById enc.creatureId = some c)
    (hHp : s.player.hp ≤ s.player.maxHp) :
    (max 0 (enc.hp - max 1 (4 - c.stats.defence)) = 0 →
      (attack s d).state.currentEncounter = none ∧
      (attack s d).state.player.xp = max 0 (s.player.xp + 10) ∧
      s.player.hp ≤ (attack s d).state.player.hp) ∧
    (0 < max 0 (enc.hp - max 1 (4 - c.stats.defence)) →
      (attack s d).state.player.hp = max 0 (s.player.hp - max 0 (c.stats.attack - 1)) ∧
      (0 < max 0 (s.player.hp - max 0 (c.stats.attack - 1)) →
        ∃ b, (attack s d).state.currentEncounter =
          some { creatureId := enc.creatureId,
                 hp := max 0 (enc.hp - max 1 (4 - c.stats.defence)),
                 hasRepFlavourApplied := some b }) ∧
      (max 0 (s.player.hp - max 0 (c.stats.attack - 1)) = 0 →
        (attack s d).state.currentEncounter = none)) := by
  unfold attack
  rw [hEnc]
  dsimp only
  rw [hC]
  dsimp only
  constructor
  · intro hkill
    split_ifs <;>
      first
        | (exfalso; omega)
        | (refine ⟨?_, ?_, ?_⟩
           · simp only [addItemToInventory_encounter, applyXp_encounter]
           · simp only [addItemToInventory_xp, applyXp_xp]
           · simp only [addItemToInventory_hp]
             exact applyXp_hp_ge _ 10 hHp)
  · intro hlive
    split_ifs <;>
      first
        | (exfalso; omega)
        | (refine ⟨?_, fun hph => ?_, fun hdead => ?_⟩ <;>
            first
              | exact ⟨_, rfl⟩
              | rfl
              | (dsimp only; omega)
              | (exfalso; omega))

/-- Witness for C3: attacking a Wild Spirit (defence 1, attack 3) at 8 hp from
20 player hp leaves the creature at 5 hp and the player at 18 hp. -/
theorem c3_combat_resolution_witness :
    (attack stEnc {}).state.player.hp = 18 := by
  have h := (c3_combat_resolution stEnc { creatureId := "wild_spirit", hp := 8 }
    { id := "wild_spirit", name := "Wild Spirit",
      stats := { hp := 8, attack := 3, defence := 1 }, biome := .forest }
    {} (by decide) (by decide) (by decide)).2 (by decide)
  rw [h.1]
  decide

/-- After a first-match replacement or append, the written record is what a
first-match lookup by its id finds. -/
theorem find_upsertQuestList (l : List QuestState) (q : QuestState) :
    (upsertQuestList l q).find? (fun x => x.id == q.id) = some q := by
  induction l with
  | nil => simp [upsertQuestList, List.find?]
  | cons x xs ih =>
    by_cases hx : (x.id == q.id) = true
    · simp [upsertQuestList, hx, List.find?]
    · simp [upsertQuestList, hx, List.find?, ih]

/-- Every quest definition in the content table carries its own lookup id. -/
theorem questDefById_id (id : String) (qd : QuestDefinition)
    (h : questDefById id = some qd) : qd.id = id := by
  unfold questDefById at h
  split_ifs at h with h1 h2 h3 h4
  · cases h
    exact (eq_of_beq h1).symm
  · cases h
    exact (eq_of_beq h2).symm
  · cases h
    exact (eq_of_beq h3).symm
  · cases h
    exact (eq_of_beq h4).symm

/-- C4: quest-ledger lazy creation — for any quest id present in the content
table momentarily, `setQuestStep` and `setQuestStatus` lazily create the quest
record when absent and then overwrite the step (resp. status) field, so a
record with that id exists afterwards carrying the written value. -/
theorem c4_quest_lazy_creation (s : GameState) (id step : String)
    (status : QuestStatus) (hdef : (questDefById id).isSome = true) :
    (∃ q, getQuestState (setQuestStep s id step) id = some q ∧ q.step = step) ∧
    (∃ q, getQuestState (setQuestStatus s id status) id = some q ∧
      q.status = status) := by
  obtain ⟨qd, hqd⟩ := Option.isSome_iff_exists.mp hdef
  have hid := questDefById_id id qd hqd
  constructor
  · unfold setQuestStep ensureQuestStateExists
    cases hfind : getQuestState s id with
    | some q0 =>
      have hq0' : q0.id = id := by
        unfold getQuestState at hfind
        exact eq_of_beq (by simpa using List.find?_some hfind)
      dsimp only
      refine ⟨{ q0 with step := step }, ?_, rfl⟩
      unfold getQuestState upsertQuestState
      dsimp only
      rw [← hq0']
      exact find_upsertQuestList s.quests { q0 with step := step }
    | none =>
      rw [hqd]
      dsimp only
      refine ⟨{ id := qd.id, name := qd.name, step := step,
                status := QuestStatus.not_started }, ?_, rfl⟩
      unfold getQuestState upsertQuestState
      dsimp only
      rw [← hid]
      exact find_upsertQuestList
        (upsertQuestList s.quests
          { id := qd.id, name := qd.name,
            step := (((qd.steps.head?).map (fun st => st.id)).getD "unlocked"),
            status := QuestStatus.not_started })
        { id := qd.id, name := qd.name, step := step, status := QuestStatus.not_started }
  · unfold setQuestStatus ensureQuestStateExists
    cases hfind : getQuestState s id with
    | some q0 =>
      have hq0' : q0.id = id := by
        unfold getQuestState at hfind
        exact eq_of_beq (by simpa using List.find?_some hfind)
      dsimp only
      refine ⟨{ q0 with status := status }, ?_, rfl⟩
      unfold getQuestState upsertQuestState
      dsimp only
      rw [← hq0']
      exact find_upsertQuestList s.quests { q0 with status := status }
    | none =>
      rw [hqd]
      dsimp only
      refine ⟨{ id := qd.id, name := qd.name,
                step := (((qd.steps.head?).map (fun st => st.id)).getD "unlocked"),
                status := status }, ?_, rfl⟩
      unfold getQuestState upsertQuestState
      dsimp only
      rw [← hid]
      exact find_upsertQuestList
        (upsertQuestList s.quests
          { id := qd.id, name := qd.name,
            step := (((qd.steps.head?).map (fun st => st.id)).getD "unlocked"),
            status := QuestStatus.not_started })
        { id := qd.id, name := qd.name,
          step := (((qd.steps.head?).map (fun st => st.id)).getD "unlocked"),
          status := status }

/-- Witness for C4: writing to the absent hermits_glow quest creates it. -/
theorem c4_quest_lazy_creation_witness :
    (∃ q, getQuestState (setQuestStep stWilds "hermits_glow" "seek_glow")
        "hermits_glow" = some q ∧ q.step = "seek_glow") ∧
    (∃ q, getQuestState (setQuestStatus stWilds "hermits_glow" .active)
        "hermits_glow" = some q ∧ q.status = .active) :=
  c4_quest_lazy_creation stWilds "hermits_glow" "seek_glow" .active (by decide)

/-- C5 (amended): whenever the hermits_glow quest is not in active status, the
deep_wilds exit is filtered out of the state-aware available-exits list (so
the move is never offered); the engine-level `moveTo` itself does not re-check
this gate, as the counterexample shows. -/
theorem c5_gated_exit_filtered (s : GameState)
    (h : ((s.quests.find? (fun x => x.id == "hermits_glow")).all
      (fun q => q.status != QuestStatus.active)) = true) :
    ∀ p ∈ getAvailableExitsForState s, p.2 ≠ LocationId.deep_wilds := by
  intro p hp heq
  unfold getAvailableExitsForState at hp
  rw [List.mem_filter] at hp
  obtain ⟨_, hcond⟩ := hp
  rw [if_pos heq] at hcond
  cases hq : s.quests.find? (fun x => x.id == "hermits_glow") with
  | none =>
    rw [hq] at hcond
    simp at hcond
  | some q =>
    rw [hq] at hcond
    rw [hq] at h
    simp at h hcond
    exact h hcond

/-- Witness for C5 (amended form) at the baseline state. -/
theorem c5_gated_exit_filtered_witness :
    ((stWilds.quests.find? (fun x => x.id == "hermits_glow")).all
        (fun q => q.status != QuestStatus.active) = true) ∧
      ∀ p ∈ getAvailableExitsForState stWilds, p.2 ≠ LocationId.deep_wilds :=
  ⟨by decide, c5_gated_exit_filtered stWilds (by decide)⟩

/-- C5 counterexample: with hermits_glow entirely absent (hence not active), a
direct `moveTo` from the Wilds into deep_wilds nevertheless succeeds — the
gate lives only in the available-exits list, not in the move itself. -/
theorem c5_counterexample :
    ((stWilds.quests.find? (fun x => x.id == "hermits_glow")).all
        (fun q => q.status != QuestStatus.active) = true) ∧
      (moveTo stWilds .deep_wilds {}).state.currentLocation = .deep_wilds := by
  exact ⟨by decide, by decide⟩

/-- C6 counterexample (negation of the claim): once the run has ended,
`consumeHealingTonic` never consumes a tonic or heals — it returns the state
unchanged for every state, tonics in inventory or not. -/
theorem c6_counterexample :
    ¬ ∃ s : GameState, truthy s.flags.runEnded = true ∧
        1 ≤ countItem s "healing_tonic" ∧ (consumeHealingTonic s).state ≠ s := by
  rintro ⟨s, h1, _, h3⟩
  apply h3
  unfold consumeHealingTonic
  rw [if_pos h1]

/-- C6 (amended): `consumeHealingTonic` hard-blocks on the run-ended latch
exactly like the other operations — with the latch set it returns the input
state unchanged together with a single system log entry. -/
theorem c6_tonic_blocked_on_run_end (s : GameState)
    (h : truthy s.flags.runEnded = true) :
    (consumeHealingTonic s).state = s ∧
      (consumeHealingTonic s).logEntries =
        [mkLog .system "Your journey in this run has ended."] := by
  unfold consumeHealingTonic
  rw [if_pos h]
  exact ⟨rfl, rfl⟩

/-- Witness for C6 (amended form): a run-ended state holding one tonic. -/
theorem c6_tonic_blocked_on_run_end_witness :
    truthy stDeadTonic.flags.runEnded = true ∧
      1 ≤ countItem stDeadTonic "healing_tonic" ∧
      (consumeHealingTonic stDeadTonic).state = stDeadTonic :=
  ⟨by decide, by decide, (c6_tonic_blocked_on_run_end stDeadTonic (by decide)).1⟩

/-- C7: the reputation tiers partition the integers into the bands determined
by the ordered comparisons revered, favour, hostile, uneasy, neutral. -/
theorem c7_rep_tier_bands (s : GameState) :
    (getForestRepTier s = .revered ↔
      25 ≤ (s.flags.reputation.map (fun r => r.forest)).getD 0) ∧
    (getForestRepTier s = .favour ↔
      10 ≤ (s.flags.reputation.map (fun r => r.forest)).getD 0 ∧
        (s.flags.reputation.map (fun r => r.forest)).getD 0 < 25) ∧
    (getForestRepTier s = .neutral ↔
      -5 < (s.flags.reputation.map (fun r => r.forest)).getD 0 ∧
        (s.flags.reputation.map (fun r => r.forest)).getD 0 < 10) ∧
    (getForestRepTier s = .uneasy ↔
      -20 < (s.flags.reputation.map (fun r => r.forest)).getD 0 ∧
        (s.flags.reputation.map (fun r => r.forest)).getD 0 ≤ -5) ∧
    (getForestRepTier s = .hostile ↔
      (s.flags.reputation.map (fun r => r.forest)).getD 0 ≤ -20) := by
  unfold getForestRepTier
  dsimp only
  split_ifs with h1 h2 h3 h4 <;>
    refine ⟨⟨fun hh => ?_, fun hh => ?_⟩, ⟨fun hh => ?_, fun hh => ?_⟩,
            ⟨fun hh => ?_, fun hh => ?_⟩, ⟨fun hh => ?_, fun hh => ?_⟩,
            ⟨fun hh => ?_, fun hh => ?_⟩⟩ <;>
      first
        | rfl
        | omega
        | (exfalso; omega)
        | (exact absurd hh (by decide))

/-- C9 counterexample: at a state whose grove quest is completed but which
stands in the Sanctum, the ritual returns the wrong-location message, not the
already-at-peace line — refuting the claim that every completed state gets the
already-at-peace message. -/
theorem c9_counterexample :
    truthy stDoneSanctum.flags.groveHealed = true ∧
    (performGroveRitual stDoneSanctum).logEntries =
      [mkLog .system "The ritual belongs to the grove in the Wilds, not here."] ∧
    mkLog .system "The ritual belongs to the grove in the Wilds, not here." ≠
      mkLog .narration
        "The grove already stands in still, luminous peace. There is nothing more to mend here." :=
  ⟨by decide, by decide, by decide⟩

/-- C10: when the active encounter references a creature id missing from the
content table, both `attack` and `attemptEscape` clear the encounter, leave
every other field unchanged, and emit exactly one system log entry. -/
theorem c10_unknown_creature (s : GameState) (enc : EncounterState)
    (d d2 : Draws)
    (hEnc : s.currentEncounter = some enc)
    (hC : creatureById enc.creatureId = none) :
    (attack s d).state = { s with currentEncounter := none } ∧
    (attack s d).logEntries = [mkLog .system "The threat wavers and slips away."] ∧
    (attemptEscape s d2).state = { s with currentEncounter := none } ∧
    (attemptEscape s d2).logEntries =
      [mkLog .system "The presence fades as suddenly as it came."] := by
  unfold attack attemptEscape
  rw [hEnc]
  dsimp only
  rw [hC]
  exact ⟨rfl, rfl, rfl, rfl⟩

/-- Witness for C10: an encounter with the untabulated will-o-wisp id. -/
theorem c10_unknown_creature_witness :
    (attack stGhost {}).state = { stGhost with currentEncounter := none } ∧
    (attack stGhost {}).logEntries = [mkLog .system "The threat wavers and slips away."] ∧
    (attemptEscape stGhost {}).state = { stGhost with currentEncounter := none } ∧
    (attemptEscape stGhost {}).logEntries =
      [mkLog .system "The presence fades as suddenly as it came."] :=
  c10_unknown_creature stGhost { creatureId := "will_o_wisp", hp := 8 } {} {}
    (by decide) (by decide)

/-- The descending threshold scan evaluates to the expected closed form. -/
theorem getLevelForXp_eq (x : Int) :
    getLevelForXp x =
      if x ≥ 100 then 5 else if x ≥ 60 then 4 else if x ≥ 30 then 3
      else if x ≥ 10 then 2 else 1 := by
  show levelForFrom x 4 = _
  rw [show (4 : Nat) = 3 + 1 from rfl, levelForFrom]
  rw [show (3 : Nat) = 2 + 1 from rfl, levelForFrom]
  rw [show (2 : Nat) = 1 + 1 from rfl, levelForFrom]
  rw [show (1 : Nat) = 0 + 1 from rfl, levelForFrom]
  rw [levelForFrom]
  norm_num [XP_THRESHOLDS]

/-- C8: `getLevelForXp` returns the highest 1-based index into the thresholds
[0,10,30,60,100] whose threshold the xp reaches (levels stay within 1..5 and
the level's own threshold is met, and no reachable threshold gives a higher
level); it is monotone, and hits 1,2,3,4,5 at 0,10,30,60,100. -/
theorem c8_level_for_xp (xp1 xp2 : Int) (h0 : 0 ≤ xp1) (h12 : xp1 ≤ xp2) :
    (1 ≤ getLevelForXp xp1 ∧ getLevelForXp xp1 ≤ 5 ∧
      XP_THRESHOLDS.getD ((getLevelForXp xp1).toNat - 1) 0 ≤ xp1 ∧
      (∀ i : Nat, i < 5 → XP_THRESHOLDS.getD i 0 ≤ xp1 →
        (i : Int) + 1 ≤ getLevelForXp xp1)) ∧
    getLevelForXp xp1 ≤ getLevelForXp xp2 ∧
    (getLevelForXp 0 = 1 ∧ getLevelForXp 10 = 2 ∧ getLevelForXp 30 = 3 ∧
      getLevelForXp 60 = 4 ∧ getLevelForXp 100 = 5) := by
  have e1 := getLevelForXp_eq xp1
  have e2 := getLevelForXp_eq xp2
  refine ⟨⟨?_, ?_, ?_, ?_⟩, ?_, by decide, by decide, by decide, by decide, by decide⟩
  · rw [e1]
    split_ifs <;> norm_num
  · rw [e1]
    split_ifs <;> norm_num
  · rw [e1]
    split_ifs <;> (simp [XP_THRESHOLDS, Int.toNat_ofNat]; try omega)
  · intro i hi hthr
    rw [e1]
    interval_cases i <;> simp [XP_THRESHOLDS] at hthr <;> split_ifs <;> omega
  · rw [e1, e2]
    split_ifs <;> omega

/-- Witness for C8: concrete xp values 0 and 10. -/
theorem c8_level_for_xp_witness : getLevelForXp 0 ≤ getLevelForXp 10 :=
  (c8_level_for_xp 0 10 (by decide) (by decide)).2.1

/-- C9 (amended): for any state whose grove quest is completed or whose
grove-healed flag is set, the ritual returns that state unchanged; when
additionally the run has not ended and the player stands in the Wilds, the
single emitted line is the already-at-peace message; repeating the ritual
from the resulting state changes nothing further, so rewards are never
granted twice. -/
theorem c9_ritual_idempotent_after_completion (s : GameState)
    (h : truthy s.flags.groveHealed = true ∨
      (∃ q, getQuestState s "heal_the_grove" = some q ∧ q.status = .completed)) :
    (performGroveRitual s).state = s ∧
    (truthy s.flags.runEnded = false → s.currentLocation = .wilds →
      (performGroveRitual s).logEntries =
        [mkLog .narration
          "The grove already stands in still, luminous peace. There is nothing more to mend here."]) ∧
    (performGroveRitual (performGroveRitual s).state).state =
      (performGroveRitual s).state := by
  have hcond : ((truthy s.flags.groveHealed ||
      (match getQuestState s "heal_the_grove" with
       | some q => q.status == QuestStatus.completed
       | none => false) : Bool)) = true := by
    rcases h with h | ⟨q, hq, hqs⟩
    · simp [h]
    · rw [hq]
      simp [hqs]
  have hstate : (performGroveRitual s).state = s := by
    unfold performGroveRitual
    split_ifs with hA hB
    · rfl
    · rfl
    · dsimp only
      split_ifs
      rfl
  refine ⟨hstate, ?_, ?_⟩
  · intro hre hloc
    unfold performGroveRitual
    rw [if_neg (show ¬ (truthy s.flags.runEnded = true) by simp [hre])]
    rw [if_neg (show ¬ (s.currentLocation ≠ LocationId.wilds) by simp [hloc])]
    dsimp only
    rw [if_pos hcond]
  · rw [hstate]
    exact hstate

/-- Witness for C9 (amended form): the healed-grove state in the Wilds. -/
theorem c9_ritual_idempotent_after_completion_witness :
    (performGroveRitual stDone).state = stDone ∧
      (performGroveRitual stDone).logEntries =
        [mkLog .narration
          "The grove already stands in still, luminous peace. There is nothing more to mend here."] :=
  ⟨(c9_ritual_idempotent_after_completion stDone (Or.inl (by decide))).1,
   (c9_ritual_idempotent_after_completion stDone (Or.inl (by decide))).2.1
     (by decide) (by decide)⟩
